import Mathlib

/-!
Shallow embedding of the toutago-datamapper MySQL adapter (Go package `mysql`).

Strings manipulated by the statement builder are modelled as `List Char`;
Go's dynamically typed values (`interface` values) crossing the adapter
boundary are modelled by the inductive `Value`, and object/identifier
arguments (which are either generic records or scalars) by `Obj`.
Go maps are modelled as association lists: lookup is `List.lookup`
(first binding wins) and the list order stands for the map's iteration
order, which in Go is unspecified; quantifying over the list therefore
quantifies over the possible iteration orders.

The backend (`database/sql`) is modelled as an oracle (`Backend`)
supplied to every operation; fallible Go calls return `Except`.
-/

namespace MySQLModel

/-- Dynamic scalar values crossing the adapter boundary. Go `float64`
values are modelled as rationals (every finite float is rational). -/
inductive Value where
  | vInt : Int → Value
  | vFloat : ℚ → Value
  | vStr : String → Value
  | vBool : Bool → Value
  | vNull : Value
deriving DecidableEq, Repr

/-- A generic record: Go `map[string]interface` with string keys. -/
abbrev Record := List (String × Value)

/-- An object or identifier argument: either a generic record or a scalar
(the two cases of the Go type switch in `singleDelete`, and the
`map[string]interface` assertion in `singleInsert`/`singleUpdate`). -/
inductive Obj where
  | record : Record → Obj
  | scalar : Value → Obj
deriving DecidableEq, Repr

/-- One field mapping of `adapter.Field`: object-field name and data
(column) name, as used via `prop.ObjectField` / `prop.DataField`. -/
structure FieldMap where
  ObjectField : String
  DataField : String
deriving DecidableEq, Repr

/-- The parts of `adapter.Operation` the MySQL adapter reads. -/
structure Operation where
  Statement : String
  Multi : Bool
  Bulk : Bool
  Properties : List FieldMap
  Generated : List FieldMap
  Identifier : List FieldMap
  Condition : List FieldMap
deriving DecidableEq, Repr

/-- The parts of `adapter.Action` the MySQL adapter reads: the statement
and whether a result mapping is declared (`action.Result != nil`). -/
structure Action where
  Statement : String
  Result : Option Unit
deriving DecidableEq, Repr

/-- Errors produced by the adapter, one constructor per distinct error
site in the Go source (`adapter.ErrNotFound`, the `fmt.Errorf` sites, and
wrapped backend errors tagged with their stage). -/
inductive AdapterErr where
  | notConnected
  | notFound
  | notAMap
  | missingIdentifier : String → AdapterErr
  | simpleIdentifierArity
  | backend : String → String → AdapterErr
deriving DecidableEq, Repr

/-- Result of a backend `Exec`: `sql.Result` with its two fallible
accessors. -/
structure ExecResult where
  lastInsertId : Except String Int
  rowsAffected : Except String Int

/-- The backend oracle: what `database/sql` answers for a statement and
argument list. `query` returns already-materialized rows (the row
materializer is not at issue in any claim); `exec` returns an
`ExecResult`. -/
structure Backend where
  exec : String → List Value → Except String ExecResult
  query : String → List Value → Except String (List Record)

/-- The `*sql.DB` handle: only its closed-ness is observable here. -/
structure SqlDB where
  closed : Bool
deriving DecidableEq, Repr

/-- `MySQLAdapter` state: `db` is `none` exactly when the Go field is
`nil`. -/
structure MySQLAdapter where
  db : Option SqlDB
  dsn : String
  maxConn : Int
  maxIdle : Int
  connMaxAge : Int
deriving Repr

/-- `NewMySQLAdapter`: the defaults set by the constructor. -/
def NewMySQLAdapter : MySQLAdapter :=
  { db := none, dsn := "", maxConn := 10, maxIdle := 5, connMaxAge := 3600 }

/-! Config keys (the `Config*` constants). -/

def ConfigHost : String := "host"
def ConfigPort : String := "port"
def ConfigUser : String := "user"
def ConfigPassword : String := "password"
def ConfigDatabase : String := "database"
def ConfigSSL : String := "ssl"
def ConfigMaxConn : String := "max_connections"
def ConfigMaxIdle : String := "max_idle"
def ConfigConnAge : String := "conn_max_age_seconds"

/-- `getStringConfig`: the `.(string)` type assertion with default. -/
def getStringConfig (config : Record) (key defaultValue : String) : String :=
  match config.lookup key with
  | some (Value.vStr s) => s
  | _ => defaultValue

/-- Go's `int(f)` conversion for a `float64` modelled as a rational:
truncation toward zero (`Int.tdiv` rounds toward zero). -/
def truncFloat (q : ℚ) : Int := q.num.tdiv q.den

/-- `getIntConfig`: the `.(int)` assertion, then the `.(float64)`
assertion truncated by `int(val)`, else the default. -/
def getIntConfig (config : Record) (key : String) (defaultValue : Int) : Int :=
  match config.lookup key with
  | some (Value.vInt n) => n
  | some (Value.vFloat q) => truncFloat q
  | _ => defaultValue

/-! The statement builder (`buildQuery`) over `List Char`. -/

/-- The opening brace character (written via its code point). -/
def lbrace : Char := Char.ofNat 123

/-- The closing brace character (written via its code point). -/
def rbrace : Char := Char.ofNat 125

/-- The placeholder string `"\x7b" ++ key ++ "\x7d"` built in `buildQuery`. -/
def placeholderOf (key : String) : List Char :=
  lbrace :: (key.toList ++ [rbrace])

/-- `strings.Contains s pat`: `pat` occurs as a contiguous substring. -/
def containsSubstr (s pat : List Char) : Bool := decide (pat <:+: s)

/-- `strings.Replace s pat repl 1`: replace the leftmost occurrence of
`pat` in `s` by `repl` (no change when `pat` does not occur; when `pat`
is empty, `repl` is inserted in front, as in Go). -/
def replaceFirst (pat repl : List Char) : List Char → List Char
  | [] => if pat.isPrefixOf ([] : List Char) then repl else []
  | c :: rest =>
    if pat.isPrefixOf (c :: rest) then repl ++ (c :: rest).drop pat.length
    else c :: replaceFirst pat repl rest

/-- One iteration of the `buildQuery` loop: if the key's placeholder
occurs in the statement built so far, replace its first occurrence by
`?` and append the value to the argument list; otherwise do nothing. -/
def buildStep (acc : List Char × List Value) (kv : String × Value) : List Char × List Value :=
  let ph := placeholderOf kv.1
  if containsSubstr acc.1 ph then (replaceFirst ph ['?'] acc.1, acc.2 ++ [kv.2])
  else acc

/-- `buildQuery`: iterate the parameter mapping (in Go, a map with
unspecified iteration order — here, the list order) applying
`buildStep` to each key/value pair. -/
def buildQuery (query : List Char) (params : Record) : List Char × List Value :=
  params.foldl buildStep (query, [])

/-! Connection management. -/

/-- The DSN produced by the `fmt.Sprintf` in `Connect`. -/
def mkDSN (user password host : String) (port : Int) (database ssl : String) : String :=
  user ++ ":" ++ password ++ "@tcp(" ++ host ++ ":" ++ toString port ++ ")/" ++
    database ++ "?parseTime=true&tls=" ++ ssl

/-- `Connect`, modelled up to a successful ping: extracts the connection
parameters, applies the pool-sizing keys only on an exact-`int` type
assertion, builds the DSN and installs an open handle. -/
def Connect (a : MySQLAdapter) (config : Record) : MySQLAdapter :=
  let host := getStringConfig config ConfigHost "localhost"
  let port := getIntConfig config ConfigPort 3306
  let user := getStringConfig config ConfigUser "root"
  let password := getStringConfig config ConfigPassword ""
  let database := getStringConfig config ConfigDatabase ""
  let ssl := getStringConfig config ConfigSSL "false"
  let a1 := match config.lookup ConfigMaxConn with
    | some (Value.vInt n) => { a with maxConn := n }
    | _ => a
  let a2 := match config.lookup ConfigMaxIdle with
    | some (Value.vInt n) => { a1 with maxIdle := n }
    | _ => a1
  let a3 := match config.lookup ConfigConnAge with
    | some (Value.vInt n) => { a2 with connMaxAge := n }
    | _ => a2
  { a3 with dsn := mkDSN user password host port database ssl,
            db := some { closed := false } }

/-- `Close`: closes the handle when present but keeps the (now closed)
handle referenced — the Go source never resets `a.db` to `nil`. -/
def Close (a : MySQLAdapter) : MySQLAdapter × Option String :=
  match a.db with
  | some d => ({ a with db := some { d with closed := true } }, none)
  | none => (a, none)

/-! CRUD operations. -/

/-- `Fetch`: nil-handle guard, build the query, run it, materialize, and
apply the single-result contract (`len(results) == 0 && !op.Multi`). -/
def Fetch (a : MySQLAdapter) (be : Backend) (op : Operation) (params : Record) :
    Except AdapterErr (List Record) :=
  match a.db with
  | none => Except.error AdapterErr.notConnected
  | some _ =>
    let qa := buildQuery op.Statement.toList params
    match be.query (String.mk qa.1) qa.2 with
    | Except.error e => Except.error (AdapterErr.backend "query" e)
    | Except.ok results =>
      if results.length = 0 && !op.Multi then Except.error AdapterErr.notFound
      else Except.ok results

/-- Go-map update (`data[k] = v`): replace the binding when present,
else add one. -/
def rset (r : Record) (k : String) (v : Value) : Record :=
  match r with
  | [] => [(k, v)]
  | (k', v') :: rest => if k' = k then (k, v) :: rest else (k', v') :: rset rest k v

/-- One iteration of the field/placeholder/value accumulation loop of
`singleInsert`: skip a property that matches a generated field by
data-field name, skip a property absent from the object data, else
append its column name, a `?` marker and its value. -/
def insertStep (op : Operation) (data : Record)
    (acc : List String × List String × List Value) (prop : FieldMap) :
    List String × List String × List Value :=
  if op.Generated.any fun gen => gen.DataField = prop.DataField then acc
  else
    match data.lookup prop.ObjectField with
    | some val => (acc.1 ++ [prop.DataField], acc.2.1 ++ ["?"], acc.2.2 ++ [val])
    | none => acc

/-- The field/placeholder/value accumulation loop of `singleInsert`:
walk `op.Properties` in order applying `insertStep`. -/
def insertCols (op : Operation) (data : Record) : List String × List String × List Value :=
  op.Properties.foldl (insertStep op data) ([], [], [])

/-- `singleInsert`: build the INSERT, execute it, and on success write
the backend-assigned `LastInsertId` back under every generated field's
object-field name. Returns the (possibly updated) object. -/
def singleInsert (be : Backend) (op : Operation) (obj : Obj) : Except AdapterErr Obj :=
  match obj with
  | Obj.scalar _ => Except.error AdapterErr.notAMap
  | Obj.record data =>
    let cols := insertCols op data
    let query := "INSERT INTO " ++ op.Statement ++ " (" ++
      String.intercalate ", " cols.1 ++ ") VALUES (" ++
      String.intercalate ", " cols.2.1 ++ ")"
    match be.exec query cols.2.2 with
    | Except.error e => Except.error (AdapterErr.backend "insert" e)
    | Except.ok res =>
      if 0 < op.Generated.length then
        match res.lastInsertId with
        | Except.error e => Except.error (AdapterErr.backend "lastInsertId" e)
        | Except.ok lastID =>
          Except.ok (Obj.record
            (op.Generated.foldl (fun d gen => rset d gen.ObjectField (Value.vInt lastID)) data))
      else Except.ok (Obj.record data)

/-- The bulk field list: derived from the first object only. -/
def bulkFields (op : Operation) (firstObj : Record) : List String :=
  op.Properties.foldl
    (fun acc prop =>
      if op.Generated.any fun gen => gen.DataField = prop.DataField then acc
      else if (firstObj.lookup prop.ObjectField).isSome then acc ++ [prop.DataField]
      else acc)
    []

/-- One bulk row: placeholders and values for one object's data. -/
def bulkRow (op : Operation) (data : Record) : List String × List Value :=
  op.Properties.foldl
    (fun acc prop =>
      if op.Generated.any fun gen => gen.DataField = prop.DataField then acc
      else
        match data.lookup prop.ObjectField with
        | some val => (acc.1 ++ ["?"], acc.2 ++ [val])
        | none => acc)
    ([], [])

/-- The per-object loop of `bulkInsert`: each object must be a record,
else the call fails; collects the parenthesized value sets and the flat
value list. -/
def collectRows (op : Operation) : List Obj → Except AdapterErr (List String × List Value)
  | [] => Except.ok ([], [])
  | Obj.scalar _ :: _ => Except.error AdapterErr.notAMap
  | Obj.record data :: rest =>
    let row := bulkRow op data
    match collectRows op rest with
    | Except.error e => Except.error e
    | Except.ok (sets, vals) =>
      Except.ok (("(" ++ String.intercalate ", " row.1 ++ ")") :: sets, row.2 ++ vals)

/-- `bulkInsert`: one multi-row INSERT; never touches the objects'
records (no generated-ID write-back on this path). -/
def bulkInsert (be : Backend) (op : Operation) (objects : List Obj) :
    Except AdapterErr Unit :=
  match objects with
  | [] => Except.ok ()
  | first :: _ =>
    match first with
    | Obj.scalar _ => Except.error AdapterErr.notAMap
    | Obj.record firstObj =>
      match collectRows op objects with
      | Except.error e => Except.error e
      | Except.ok (valueSets, values) =>
        let query := "INSERT INTO " ++ op.Statement ++ " (" ++
          String.intercalate ", " (bulkFields op firstObj) ++ ") VALUES " ++
          String.intercalate ", " valueSets
        match be.exec query values with
        | Except.error e => Except.error (AdapterErr.backend "bulkInsert" e)
        | Except.ok _ => Except.ok ()

/-- The sequential single-insert loop of `Insert`, returning the updated
objects on success. -/
def insertEach (be : Backend) (op : Operation) : List Obj → Except AdapterErr (List Obj)
  | [] => Except.ok []
  | obj :: rest =>
    match singleInsert be op obj with
    | Except.error e => Except.error e
    | Except.ok obj2 =>
      match insertEach be op rest with
      | Except.error e => Except.error e
      | Except.ok rest2 => Except.ok (obj2 :: rest2)

/-- `Insert`: guard, empty-input no-op, bulk dispatch
(`op.Bulk && len(objects) > 1`), else per-object single inserts.
Returns the post-call objects. -/
def Insert (a : MySQLAdapter) (be : Backend) (op : Operation) (objects : List Obj) :
    Except AdapterErr (List Obj) :=
  match a.db with
  | none => Except.error AdapterErr.notConnected
  | some _ =>
    if objects.length = 0 then Except.ok objects
    else if op.Bulk && decide (1 < objects.length) then
      match bulkInsert be op objects with
      | Except.error e => Except.error e
      | Except.ok _ => Except.ok objects
    else insertEach be op objects

/-- One iteration of the SET-clause loop of `singleUpdate`: skip a
property that matches an identifier field by data-field name, skip a
property absent from the object data, else append its SET fragment and
value. -/
def setStep (op : Operation) (data : Record)
    (acc : List String × List Value) (prop : FieldMap) : List String × List Value :=
  if op.Identifier.any fun id => id.DataField = prop.DataField then acc
  else
    match data.lookup prop.ObjectField with
    | some val => (acc.1 ++ [prop.DataField ++ " = ?"], acc.2 ++ [val])
    | none => acc

/-- The SET-clause loop of `singleUpdate`: properties minus identifier
fields (matched by data-field name), values from the object data, absent
fields omitted. -/
def setPairs (op : Operation) (data : Record) : List String × List Value :=
  op.Properties.foldl (setStep op data) ([], [])

/-- The identifier WHERE loop shared by `singleUpdate` and the record
case of `singleDelete`: every identifier field must be present in the
data, else the first missing object-field name is returned as an error. -/
def identWhere (ids : List FieldMap) (data : Record) :
    Except String (List String × List Value) :=
  match ids with
  | [] => Except.ok ([], [])
  | id :: rest =>
    match data.lookup id.ObjectField with
    | some val =>
      match identWhere rest data with
      | Except.error e => Except.error e
      | Except.ok (cs, vs) => Except.ok ((id.DataField ++ " = ?") :: cs, val :: vs)
    | none => Except.error id.ObjectField

/-- One iteration of the condition WHERE loop of `singleUpdate`: a
condition field present in the data is added; an absent one is silently
skipped. -/
def condStep (data : Record) (acc : List String × List Value) (cond : FieldMap) :
    List String × List Value :=
  match data.lookup cond.ObjectField with
  | some val => (acc.1 ++ [cond.DataField ++ " = ?"], acc.2 ++ [val])
  | none => acc

/-- The condition WHERE loop of `singleUpdate`. -/
def condWhere (conds : List FieldMap) (data : Record) : List String × List Value :=
  conds.foldl (condStep data) ([], [])

/-- The execute-and-count tail shared by `singleUpdate` and
`singleDelete`: run the statement, read the affected-row count, and map
a zero count to `ErrNotFound`. -/
def execAffected (be : Backend) (stage : String) (query : String) (values : List Value) :
    Except AdapterErr Unit :=
  match be.exec query values with
  | Except.error e => Except.error (AdapterErr.backend stage e)
  | Except.ok res =>
    match res.rowsAffected with
    | Except.error e => Except.error (AdapterErr.backend "rowsAffected" e)
    | Except.ok n => if n = 0 then Except.error AdapterErr.notFound else Except.ok ()

/-- `singleUpdate`: SET clause, identifier WHERE clause (fatal on a
missing identifier field), condition WHERE clause, then execute and map
zero affected rows to `ErrNotFound`. -/
def singleUpdate (be : Backend) (op : Operation) (obj : Obj) : Except AdapterErr Unit :=
  match obj with
  | Obj.scalar _ => Except.error AdapterErr.notAMap
  | Obj.record data =>
    let sp := setPairs op data
    match identWhere op.Identifier data with
    | Except.error f => Except.error (AdapterErr.missingIdentifier f)
    | Except.ok iw =>
      let cw := condWhere op.Condition data
      let query := "UPDATE " ++ op.Statement ++ " SET " ++
        String.intercalate ", " sp.1 ++ " WHERE " ++
        String.intercalate " AND " (iw.1 ++ cw.1)
      execAffected be "update" query (sp.2 ++ iw.2 ++ cw.2)

/-- The sequential loop of `Update`. -/
def updateEach (be : Backend) (op : Operation) : List Obj → Except AdapterErr Unit
  | [] => Except.ok ()
  | obj :: rest =>
    match singleUpdate be op obj with
    | Except.error e => Except.error e
    | Except.ok _ => updateEach be op rest

/-- `Update`: guard, empty-input no-op, else per-object updates. -/
def Update (a : MySQLAdapter) (be : Backend) (op : Operation) (objects : List Obj) :
    Except AdapterErr Unit :=
  match a.db with
  | none => Except.error AdapterErr.notConnected
  | some _ =>
    if objects.length = 0 then Except.ok () else updateEach be op objects

/-- `singleDelete`: a record identifier requires every identifier field;
a scalar identifier requires `op.Identifier` to have exactly one field;
then execute and map zero affected rows to `ErrNotFound`. -/
def singleDelete (be : Backend) (op : Operation) (identifier : Obj) :
    Except AdapterErr Unit :=
  match identifier with
  | Obj.record idr =>
    match identWhere op.Identifier idr with
    | Except.error f => Except.error (AdapterErr.missingIdentifier f)
    | Except.ok iw =>
      execAffected be "delete"
        ("DELETE FROM " ++ op.Statement ++ " WHERE " ++ String.intercalate " AND " iw.1)
        iw.2
  | Obj.scalar v =>
    match op.Identifier with
    | [idf] =>
      execAffected be "delete"
        ("DELETE FROM " ++ op.Statement ++ " WHERE " ++ (idf.DataField ++ " = ?"))
        [v]
    | _ => Except.error AdapterErr.simpleIdentifierArity

/-- The sequential loop of `Delete`. -/
def deleteEach (be : Backend) (op : Operation) : List Obj → Except AdapterErr Unit
  | [] => Except.ok ()
  | id :: rest =>
    match singleDelete be op id with
    | Except.error e => Except.error e
    | Except.ok _ => deleteEach be op rest

/-- `Delete`: guard, empty-input no-op, else per-identifier deletes. -/
def Delete (a : MySQLAdapter) (be : Backend) (op : Operation) (identifiers : List Obj) :
    Except AdapterErr Unit :=
  match a.db with
  | none => Except.error AdapterErr.notConnected
  | some _ =>
    if identifiers.length = 0 then Except.ok () else deleteEach be op identifiers

/-- What `Execute` returns: a row set (result mapping declared) or a
count record (`rows_affected`). -/
inductive ExecOut where
  | rows : List Record → ExecOut
  | count : Int → ExecOut
deriving DecidableEq, Repr

/-- `Execute`: guard, build the statement, then either query (when a
result mapping is declared) or exec, defaulting the affected-row count
to zero when the backend cannot report it. -/
def Execute (a : MySQLAdapter) (be : Backend) (action : Action) (params : Record) :
    Except AdapterErr ExecOut :=
  match a.db with
  | none => Except.error AdapterErr.notConnected
  | some _ =>
    let qa := buildQuery action.Statement.toList params
    match action.Result with
    | some _ =>
      match be.query (String.mk qa.1) qa.2 with
      | Except.error e => Except.error (AdapterErr.backend "query" e)
      | Except.ok results => Except.ok (ExecOut.rows results)
    | none =>
      match be.exec (String.mk qa.1) qa.2 with
      | Except.error e => Except.error (AdapterErr.backend "execute" e)
      | Except.ok res =>
        Except.ok (ExecOut.count
          (match res.rowsAffected with
           | Except.ok n => n
           | Except.error _ => 0))

/-! Characterization helpers and concrete fixtures used by the theorems
and witnesses below. -/

/-- The field subset the spec describes for INSERT/UPDATE field lists:
the properties, in order, that do not match an excluded field (generated
fields for insert, identifier fields for update — matched by data-field
name) and whose object-field name is present in the object data. -/
def keepPresent (excluded : List FieldMap) (data : Record) (props : List FieldMap) :
    List FieldMap :=
  props.filter fun p =>
    !(excluded.any fun g => g.DataField = p.DataField) &&
      (data.lookup p.ObjectField).isSome

/-- Template `"W \x7bb\x7d \x7ba\x7d"`: placeholder `b` occurs to the left of
placeholder `a`. -/
def tmplBA : List Char := ['W', ' '] ++ placeholderOf "b" ++ [' '] ++ placeholderOf "a"

/-- Template `"\x7ba\x7bb\x7da\x7d"`: substituting `b` turns it into
`"\x7ba?a\x7d"`, which is the placeholder of the key `"a?a"`. -/
def tmplNested : List Char := [lbrace, 'a'] ++ placeholderOf "b" ++ ['a', rbrace]

/-- A backend whose every call fails the way `database/sql` fails after
`Close`. -/
def closedBackend : Backend :=
  { exec := fun _ _ => Except.error "sql: database is closed",
    query := fun _ _ => Except.error "sql: database is closed" }

/-- A backend whose queries return no rows and whose exec reports one
affected row with identity value 42. -/
def emptyBackend : Backend :=
  { exec := fun _ _ => Except.ok { lastInsertId := Except.ok 42, rowsAffected := Except.ok 1 },
    query := fun _ _ => Except.ok [] }

/-- A backend whose exec reports zero affected rows. -/
def zeroRowsBackend : Backend :=
  { exec := fun _ _ => Except.ok { lastInsertId := Except.ok 0, rowsAffected := Except.ok 0 },
    query := fun _ _ => Except.ok [] }

/-- The `ExecResult` produced by `emptyBackend.exec`. -/
def res42 : ExecResult := { lastInsertId := Except.ok 42, rowsAffected := Except.ok 1 }

/-- The `ExecResult` produced by `zeroRowsBackend.exec`. -/
def res0 : ExecResult := { lastInsertId := Except.ok 0, rowsAffected := Except.ok 0 }

/-- A minimal fetch operation on table `users` (single-result contract). -/
def opUsers : Operation :=
  { Statement := "users", Multi := false, Bulk := false,
    Properties := [], Generated := [], Identifier := [], Condition := [] }

/-- The spec's end-to-end insert example: `properties = [(Name, name),
(Email, email)]`, `generated = [(ID, id)]`. -/
def opInsertExample : Operation :=
  { Statement := "users", Multi := false, Bulk := false,
    Properties := [⟨"Name", "name"⟩, ⟨"Email", "email"⟩],
    Generated := [⟨"ID", "id"⟩], Identifier := [], Condition := [] }

/-- The insert example in bulk mode. -/
def opBulkExample : Operation :=
  { Statement := "users", Multi := false, Bulk := true,
    Properties := [⟨"Name", "name"⟩, ⟨"Email", "email"⟩],
    Generated := [⟨"ID", "id"⟩], Identifier := [], Condition := [] }

/-- An update/delete operation: identifier `ID/id`, optimistic-locking
condition `Version/version`. -/
def opUpdateExample : Operation :=
  { Statement := "users", Multi := false, Bulk := false,
    Properties := [⟨"ID", "id"⟩, ⟨"Name", "name"⟩, ⟨"Email", "email"⟩],
    Generated := [], Identifier := [⟨"ID", "id"⟩],
    Condition := [⟨"Version", "version"⟩] }

/-- The spec example object. -/
def dataJohn : Record := [("Name", Value.vStr "John"), ("Email", Value.vStr "j@x.com")]

/-- The example object with its identifier present. -/
def dataJohnWithId : Record :=
  [("ID", Value.vInt 7), ("Name", Value.vStr "John"), ("Email", Value.vStr "j@x.com")]

/-- A custom action without a declared result mapping. -/
def actionPing : Action := { Statement := "SELECT 1", Result := none }

/-- An adapter that went through a successful `Connect` with an empty
configuration. -/
def connAdapter : MySQLAdapter := Connect NewMySQLAdapter []

/-- A configuration giving floating-point values to the three pool-sizing
keys and to the port. -/
def cfgFloat : Record :=
  [(ConfigMaxConn, Value.vFloat 20), (ConfigMaxIdle, Value.vFloat 8),
   (ConfigConnAge, Value.vFloat 1800), (ConfigPort, Value.vFloat (6603/2))]

/-- A configuration exercising every branch of `getIntConfig`. -/
def cfgMixed : Record :=
  [("i", Value.vInt 42), ("f", Value.vFloat (-7/2)), ("s", Value.vStr "x")]

/-! Theorems. -/

/-- C1: `buildQuery` does not order its argument list by the left-to-right
position of the markers in the output statement; it appends arguments in
parameter-map iteration order. For the template `W \x7bb\x7d \x7ba\x7d`
(marker of `b` to the left of marker of `a`), the iteration order
`a` then `b` — which Go's unspecified map order may produce — yields the
argument list `[1, 2]` (value of `a` first), while the claim requires
`[2, 1]`; the opposite iteration order yields `[2, 1]`, so the result is
also not deterministic across iteration orders. -/
theorem buildQuery_args_follow_iteration_order :
    buildQuery tmplBA [("a", Value.vInt 1), ("b", Value.vInt 2)] =
      (['W', ' ', '?', ' ', '?'], [Value.vInt 1, Value.vInt 2]) ∧
    buildQuery tmplBA [("b", Value.vInt 2), ("a", Value.vInt 1)] =
      (['W', ' ', '?', ' ', '?'], [Value.vInt 2, Value.vInt 1]) ∧
    [Value.vInt 1, Value.vInt 2] ≠ [Value.vInt 2, Value.vInt 1] := by
  decide

/-- C2 (counterexample): after `Connect` then `Close`, the handle field
is still set (the Go source never resets `a.db` to `nil`), so `Fetch`
does not fail with the not-connected error as its first check — it
proceeds to build the statement and reaches the backend, returning a
wrapped backend error instead. -/
theorem fetch_after_close_not_notConnected :
    Fetch (Close (Connect NewMySQLAdapter [])).1 closedBackend opUsers [] =
      Except.error (AdapterErr.backend "query" "sql: database is closed") ∧
    AdapterErr.backend "query" "sql: database is closed" ≠ AdapterErr.notConnected := by
  exact ⟨rfl, by decide⟩

/-- C2 (amended): every public data operation invoked while the handle
field is `nil` — i.e. before any successful `Connect` — fails with the
not-connected error as its first check, for every backend and operation
descriptor, hence deterministically and without building or sending any
statement. -/
theorem notConnected_guard (a : MySQLAdapter) (be : Backend) (op : Operation)
    (action : Action) (params : Record) (objects identifiers : List Obj)
    (h : a.db = none) :
    Fetch a be op params = Except.error AdapterErr.notConnected ∧
    Insert a be op objects = Except.error AdapterErr.notConnected ∧
    Update a be op objects = Except.error AdapterErr.notConnected ∧
    Delete a be op identifiers = Except.error AdapterErr.notConnected ∧
    Execute a be action params = Except.error AdapterErr.notConnected := by
  refine ⟨?_, ?_, ?_, ?_, ?_⟩ <;>
    simp only [Fetch, Insert, Update, Delete, Execute, h]

/-- C2 (witness): the guard fires on a freshly constructed adapter. -/
theorem notConnected_guard_witness :
    Fetch NewMySQLAdapter closedBackend opUsers [] = Except.error AdapterErr.notConnected ∧
    Insert NewMySQLAdapter closedBackend opUsers [] = Except.error AdapterErr.notConnected ∧
    Update NewMySQLAdapter closedBackend opUsers [] = Except.error AdapterErr.notConnected ∧
    Delete NewMySQLAdapter closedBackend opUsers [] = Except.error AdapterErr.notConnected ∧
    Execute NewMySQLAdapter closedBackend actionPing [] = Except.error AdapterErr.notConnected :=
  notConnected_guard NewMySQLAdapter closedBackend opUsers actionPing [] [] [] rfl

/-- C3: on a connected adapter, when the materialized result set is
empty, `Fetch` fails with the not-found error if `op.Multi` is false and
returns the empty sequence as a valid result if `op.Multi` is true. -/
theorem fetch_empty_result (a : MySQLAdapter) (d : SqlDB) (be : Backend)
    (op : Operation) (params : Record)
    (hdb : a.db = some d)
    (hbe : ∀ q args, be.query q args = Except.ok []) :
    Fetch a be op params =
      if op.Multi then Except.ok [] else Except.error AdapterErr.notFound := by
  simp only [Fetch, hdb, hbe]
  cases op.Multi <;> simp

/-- C3 (witness): an empty result under the single-result contract. -/
theorem fetch_empty_result_witness :
    Fetch connAdapter emptyBackend opUsers [] =
      if opUsers.Multi then Except.ok [] else Except.error AdapterErr.notFound :=
  fetch_empty_result connAdapter { closed := false } emptyBackend opUsers []
    rfl (fun _ _ => rfl)

/-- C9: a successful bulk insert (bulk flag set, at least two objects,
generated fields non-empty) returns the objects unchanged: no
backend-assigned identity value is written back on the bulk path. -/
theorem bulk_insert_no_writeback (a : MySQLAdapter) (d : SqlDB) (be : Backend)
    (op : Operation) (objects out : List Obj)
    (hdb : a.db = some d) (hbulk : op.Bulk = true) (hlen : 1 < objects.length)
    (_hgen : op.Generated ≠ [])
    (hok : Insert a be op objects = Except.ok out) : out = objects := by
  simp only [Insert, hdb] at hok
  rw [if_neg (by omega : ¬ objects.length = 0)] at hok
  rw [hbulk] at hok
  rw [if_pos (by simp [hlen] : (true && decide (1 < objects.length)) = true)] at hok
  cases hbi : bulkInsert be op objects <;> rw [hbi] at hok <;> simp_all

/-- C9 (witness): a successful two-object bulk insert with a generated
field returns the objects exactly as passed. -/
theorem bulk_insert_no_writeback_witness :
    Insert connAdapter emptyBackend opBulkExample
        [Obj.record dataJohn, Obj.record [("Name", Value.vStr "Ana")]] =
      Except.ok [Obj.record dataJohn, Obj.record [("Name", Value.vStr "Ana")]] ∧
    ([Obj.record dataJohn, Obj.record [("Name", Value.vStr "Ana")]] : List Obj) =
      [Obj.record dataJohn, Obj.record [("Name", Value.vStr "Ana")]] :=
  ⟨rfl,
   bulk_insert_no_writeback connAdapter { closed := false } emptyBackend opBulkExample
     [Obj.record dataJohn, Obj.record [("Name", Value.vStr "Ana")]]
     [Obj.record dataJohn, Obj.record [("Name", Value.vStr "Ana")]]
     rfl rfl (by decide) (by decide) rfl⟩

/-- A floating-point value at the max-connections key is ignored. -/
theorem Connect_maxConn_skip (a : MySQLAdapter) (config : Record) (q : ℚ)
    (h : config.lookup ConfigMaxConn = some (Value.vFloat q)) :
    (Connect a config).maxConn = a.maxConn := by
  simp only [Connect, h]
  repeat' split
  all_goals rfl

/-- A floating-point value at the max-idle key is ignored. -/
theorem Connect_maxIdle_skip (a : MySQLAdapter) (config : Record) (q : ℚ)
    (h : config.lookup ConfigMaxIdle = some (Value.vFloat q)) :
    (Connect a config).maxIdle = a.maxIdle := by
  simp only [Connect, h]
  repeat' split
  all_goals rfl

/-- A floating-point value at the max-age key is ignored. -/
theorem Connect_connMaxAge_skip (a : MySQLAdapter) (config : Record) (q : ℚ)
    (h : config.lookup ConfigConnAge = some (Value.vFloat q)) :
    (Connect a config).connMaxAge = a.connMaxAge := by
  simp only [Connect, h]
  repeat' split
  all_goals rfl

/-- An exact-integer value at the max-connections key is applied. -/
theorem Connect_maxConn_int (a : MySQLAdapter) (config : Record) (n : Int)
    (h : config.lookup ConfigMaxConn = some (Value.vInt n)) :
    (Connect a config).maxConn = n := by
  simp only [Connect, h]
  repeat' split
  all_goals rfl

/-- For a nonnegative rational, truncation toward zero is the floor. -/
theorem truncFloat_of_nonneg (q : ℚ) (h : 0 ≤ q) : truncFloat q = ⌊q⌋ := by
  unfold truncFloat
  rw [Int.tdiv_eq_ediv (Rat.num_nonneg.mpr h) (Int.ofNat_nonneg _)]
  exact Rat.floor_def.symm

/-- For a nonpositive rational, truncation toward zero is the ceiling. -/
theorem truncFloat_of_nonpos (q : ℚ) (h : q ≤ 0) : truncFloat q = ⌈q⌉ := by
  have hnum : 0 ≤ -q.num := by
    have := Rat.num_nonpos.mpr h
    omega
  have h2 : (-q.num).tdiv q.den = -(q.num.tdiv q.den) := Int.neg_tdiv q.num q.den
  have h3 : (-q.num).tdiv (q.den : ℤ) = (-q.num) / (q.den : ℤ) :=
    Int.tdiv_eq_ediv hnum (Int.ofNat_nonneg _)
  have h4 : ⌊-q⌋ = (-q.num) / (q.den : ℤ) := by
    rw [Rat.floor_def, Rat.neg_num, Rat.neg_den]
  have h5 : ⌊-q⌋ = -⌈q⌉ := Int.floor_neg
  unfold truncFloat
  omega

/-- C8: the integer configuration extractor returns an exact-integer
value as is, truncates a floating-point value toward zero (floor for
nonnegative values, ceiling for nonpositive ones), and returns the
default when the key is absent or holds any other type; it is a total
function, so it never fails. -/
theorem getIntConfig_spec (config : Record) (key : String) (d : Int) :
    (∀ n, config.lookup key = some (Value.vInt n) → getIntConfig config key d = n) ∧
    (∀ q, config.lookup key = some (Value.vFloat q) →
      getIntConfig config key d = truncFloat q ∧
      (0 ≤ q → getIntConfig config key d = ⌊q⌋) ∧
      (q ≤ 0 → getIntConfig config key d = ⌈q⌉)) ∧
    (config.lookup key = none → getIntConfig config key d = d) ∧
    (∀ v, config.lookup key = some v →
      (∀ n, v ≠ Value.vInt n) → (∀ q, v ≠ Value.vFloat q) →
      getIntConfig config key d = d) := by
  refine ⟨?_, ?_, ?_, ?_⟩
  · intro n h; simp [getIntConfig, h]
  · intro q h
    refine ⟨by simp [getIntConfig, h], ?_, ?_⟩
    · intro hq; simp [getIntConfig, h, truncFloat_of_nonneg q hq]
    · intro hq; simp [getIntConfig, h, truncFloat_of_nonpos q hq]
  · intro h; simp [getIntConfig, h]
  · intro v h hni hnf
    cases v with
    | vInt n => exact absurd rfl (hni n)
    | vFloat q => exact absurd rfl (hnf q)
    | vStr s => simp [getIntConfig, h]
    | vBool b => simp [getIntConfig, h]
    | vNull => simp [getIntConfig, h]

/-- C8 (witness): the three behaviors at a concrete configuration. -/
theorem getIntConfig_spec_witness :
    getIntConfig cfgMixed "i" 9 = 42 ∧
    getIntConfig cfgMixed "f" 9 = ⌈(-7/2 : ℚ)⌉ ∧
    getIntConfig cfgMixed "s" 9 = 9 ∧
    getIntConfig cfgMixed "missing" 9 = 9 :=
  ⟨(getIntConfig_spec cfgMixed "i" 9).1 42 rfl,
   ((getIntConfig_spec cfgMixed "f" 9).2.1 (-7/2) rfl).2.2 (by norm_num),
   (getIntConfig_spec cfgMixed "s" 9).2.2.2 (Value.vStr "x") rfl
     (fun n => by simp) (fun q => by simp),
   (getIntConfig_spec cfgMixed "missing" 9).2.2.1 rfl⟩

/-- C10: during `Connect`, the pool-sizing keys `max_connections`,
`max_idle` and `conn_max_age_seconds` are recognized only at exact
integer type — a floating-point value is silently ignored and the
defaults 10, 5 and 3600 are kept — while the port key goes through the
coercing integer extractor and accepts floating-point values
(truncated toward zero). -/
theorem connect_pool_keys_exact_int (config : Record) :
    (∀ q : ℚ, config.lookup ConfigMaxConn = some (Value.vFloat q) →
      (Connect NewMySQLAdapter config).maxConn = 10) ∧
    (∀ q : ℚ, config.lookup ConfigMaxIdle = some (Value.vFloat q) →
      (Connect NewMySQLAdapter config).maxIdle = 5) ∧
    (∀ q : ℚ, config.lookup ConfigConnAge = some (Value.vFloat q) →
      (Connect NewMySQLAdapter config).connMaxAge = 3600) ∧
    (∀ n : Int, config.lookup ConfigMaxConn = some (Value.vInt n) →
      (Connect NewMySQLAdapter config).maxConn = n) ∧
    (∀ q : ℚ, config.lookup ConfigPort = some (Value.vFloat q) →
      getIntConfig config ConfigPort 3306 = truncFloat q) := by
  refine ⟨?_, ?_, ?_, ?_, ?_⟩
  · intro q h; rw [Connect_maxConn_skip _ _ _ h]; rfl
  · intro q h; rw [Connect_maxIdle_skip _ _ _ h]; rfl
  · intro q h; rw [Connect_connMaxAge_skip _ _ _ h]; rfl
  · intro n h; exact Connect_maxConn_int _ _ _ h
  · intro q h; simp [getIntConfig, h]

/-- C10 (witness): a configuration with floating-point values at the
three pool keys keeps all defaults, while the floating-point port is
truncated. -/
theorem connect_pool_keys_exact_int_witness :
    (Connect NewMySQLAdapter cfgFloat).maxConn = 10 ∧
    (Connect NewMySQLAdapter cfgFloat).maxIdle = 5 ∧
    (Connect NewMySQLAdapter cfgFloat).connMaxAge = 3600 ∧
    getIntConfig cfgFloat ConfigPort 3306 = truncFloat (6603/2) := by
  obtain ⟨h1, h2, h3, h4, h5⟩ := connect_pool_keys_exact_int cfgFloat
  exact ⟨h1 20 rfl, h2 8 rfl, h3 1800 rfl, h5 (6603/2) rfl⟩

/-- Characterization of the `singleInsert` accumulation loop: the three
accumulated lists are the kept properties' column names, one `?` marker
per kept property, and the kept properties' values. -/
theorem insertStep_foldl (op : Operation) (data : Record) :
    ∀ (l : List FieldMap) (acc : List String × List String × List Value),
      l.foldl (insertStep op data) acc =
        (acc.1 ++ (keepPresent op.Generated data l).map (fun p => p.DataField),
         acc.2.1 ++ (keepPresent op.Generated data l).map (fun _ => "?"),
         acc.2.2 ++ (keepPresent op.Generated data l).filterMap (fun p => data.lookup p.ObjectField)) := by
  intro l
  induction l with
  | nil => intro acc; simp [keepPresent]
  | cons p l ih =>
    intro acc
    rw [List.foldl_cons, ih]
    unfold insertStep keepPresent
    by_cases hg : (op.Generated.any fun gen => gen.DataField = p.DataField) = true
    · simp [hg, keepPresent]
    · cases hl : data.lookup p.ObjectField with
      | some val => simp [hg, hl, keepPresent, List.filter_cons]
      | none => simp [hg, hl, keepPresent, List.filter_cons]

/-- Looking up the key just set returns the new value. -/
theorem lookup_rset_self : ∀ (r : Record) (k : String) (v : Value),
    (rset r k v).lookup k = some v
  | [], k, v => by simp [rset, List.lookup]
  | (k', v') :: rest, k, v => by
    by_cases h : k' = k
    · simp [rset, h, List.lookup]
    · simp [rset, h, List.lookup, beq_eq_false_iff_ne.mpr (Ne.symm h), lookup_rset_self rest k v]

/-- Setting one key leaves lookups of other keys unchanged. -/
theorem lookup_rset_ne : ∀ (r : Record) (k : String) (v : Value) (k' : String),
    k' ≠ k → (rset r k v).lookup k' = r.lookup k'
  | [], k, v, k', h => by simp [rset, List.lookup, beq_eq_false_iff_ne.mpr h]
  | (k0, v0) :: rest, k, v, k', h => by
    by_cases h0 : k0 = k
    · subst h0
      simp [rset, List.lookup, beq_eq_false_iff_ne.mpr h]
    · by_cases h1 : k' = k0
      · subst h1
        simp [rset, h0, List.lookup]
      · simp [rset, h0, List.lookup, beq_eq_false_iff_ne.mpr h1,
          lookup_rset_ne rest k v k' h]
/-- Writing the generated fields leaves keys outside them unchanged. -/
theorem lookup_foldl_rset_of_not_mem (v : Value) :
    ∀ (gens : List FieldMap) (data : Record) (k : String),
      (∀ g ∈ gens, g.ObjectField ≠ k) →
      (gens.foldl (fun d gen => rset d gen.ObjectField v) data).lookup k = data.lookup k
  | [], data, k, h => rfl
  | g :: gens, data, k, h => by
    rw [List.foldl_cons,
      lookup_foldl_rset_of_not_mem v gens _ k (fun g' hg' => h g' (List.mem_cons_of_mem _ hg'))]
    exact lookup_rset_ne _ _ _ _ (Ne.symm (h g (List.mem_cons_self _ _)))

/-- After writing value `v` under every generated field's object-field
name, each of those keys reads back `v`. -/
theorem lookup_foldl_rset_of_mem (v : Value) :
    ∀ (gens : List FieldMap) (data : Record) (k : String),
      (∃ g ∈ gens, g.ObjectField = k) →
      (gens.foldl (fun d gen => rset d gen.ObjectField v) data).lookup k = some v
  | [], _, _, h => absurd h (by simp)
  | g :: gens, data, k, h => by
    rw [List.foldl_cons]
    by_cases hmem : ∃ g' ∈ gens, g'.ObjectField = k
    · exact lookup_foldl_rset_of_mem v gens _ k hmem
    · have hk : g.ObjectField = k := by
        obtain ⟨g', hg', he⟩ := h
        cases List.mem_cons.mp hg' with
        | inl h1 => subst h1; exact he
        | inr h2 => exact absurd ⟨g', h2, he⟩ hmem
      have hnot : ∀ g' ∈ gens, g'.ObjectField ≠ k := fun g' hg' he => hmem ⟨g', hg', he⟩
      rw [lookup_foldl_rset_of_not_mem v gens _ k hnot, hk, lookup_rset_self]

/-- C4: for a single insert, the column list is the operation's
properties minus its generated fields (matched by data-field name), in
properties order, with fields absent from the object data omitted from
both the column and the value list; and after a successful insert with
non-empty generated fields, the backend identity value is written back
onto the object under each generated field's object-field name, leaving
all other keys unchanged. -/
theorem singleInsert_spec (be : Backend) (op : Operation) (data : Record)
    (res : ExecResult) (lastID : Int)
    (hbe : ∀ q vs, be.exec q vs = Except.ok res)
    (hlast : res.lastInsertId = Except.ok lastID)
    (hgen : op.Generated ≠ []) :
    (insertCols op data).1 =
      (keepPresent op.Generated data op.Properties).map (fun p => p.DataField) ∧
    (insertCols op data).2.2 =
      (keepPresent op.Generated data op.Properties).filterMap
        (fun p => data.lookup p.ObjectField) ∧
    ∃ d2, singleInsert be op (Obj.record data) = Except.ok (Obj.record d2) ∧
      (∀ gen ∈ op.Generated, d2.lookup gen.ObjectField = some (Value.vInt lastID)) ∧
      (∀ k, (∀ gen ∈ op.Generated, gen.ObjectField ≠ k) → d2.lookup k = data.lookup k) := by
  have hcols := insertStep_foldl op data op.Properties ([], [], [])
  refine ⟨by simp [insertCols, hcols], by simp [insertCols, hcols], ?_⟩
  refine ⟨op.Generated.foldl (fun d gen => rset d gen.ObjectField (Value.vInt lastID)) data,
    ?_, ?_, ?_⟩
  · simp only [singleInsert, hbe, hlast]
    rw [if_pos (List.length_pos.mpr hgen)]
  · intro gen hg
    exact lookup_foldl_rset_of_mem _ op.Generated data gen.ObjectField ⟨gen, hg, rfl⟩
  · intro k hk
    exact lookup_foldl_rset_of_not_mem _ op.Generated data k hk
/-- Characterization of the `singleUpdate` SET loop: kept properties'
SET fragments and values, in properties order. -/
theorem setStep_foldl (op : Operation) (data : Record) :
    ∀ (l : List FieldMap) (acc : List String × List Value),
      l.foldl (setStep op data) acc =
        (acc.1 ++ (keepPresent op.Identifier data l).map (fun p => p.DataField ++ " = ?"),
         acc.2 ++ (keepPresent op.Identifier data l).filterMap
           (fun p => data.lookup p.ObjectField)) := by
  intro l
  induction l with
  | nil => intro acc; simp [keepPresent]
  | cons p l ih =>
    intro acc
    rw [List.foldl_cons, ih]
    unfold setStep keepPresent
    by_cases hg : (op.Identifier.any fun id => id.DataField = p.DataField) = true
    · simp [hg, keepPresent]
    · cases hl : data.lookup p.ObjectField with
      | some val => simp [hg, hl, keepPresent, List.filter_cons]
      | none => simp [hg, hl, keepPresent, List.filter_cons]

/-- Characterization of the condition WHERE loop: exactly the condition
fields present in the object data are added, in order. -/
theorem condStep_foldl (data : Record) :
    ∀ (conds : List FieldMap) (acc : List String × List Value),
      conds.foldl (condStep data) acc =
        (acc.1 ++ (conds.filter fun c => (data.lookup c.ObjectField).isSome).map
           (fun c => c.DataField ++ " = ?"),
         acc.2 ++ (conds.filter fun c => (data.lookup c.ObjectField).isSome).filterMap
           (fun c => data.lookup c.ObjectField)) := by
  intro conds
  induction conds with
  | nil => intro acc; simp
  | cons c conds ih =>
    intro acc
    rw [List.foldl_cons, ih]
    unfold condStep
    cases hl : data.lookup c.ObjectField with
    | some val => simp [hl, List.filter_cons]
    | none => simp [hl, List.filter_cons]

/-- When every identifier field is present in the object data, the
identifier WHERE clause contains all of them, in order. -/
theorem identWhere_ok (ids : List FieldMap) (data : Record)
    (h : ∀ i ∈ ids, (data.lookup i.ObjectField).isSome) :
    identWhere ids data =
      Except.ok (ids.map (fun i => i.DataField ++ " = ?"),
                 ids.filterMap (fun i => data.lookup i.ObjectField)) := by
  induction ids with
  | nil => rfl
  | cons i ids ih =>
    obtain ⟨val, hval⟩ := Option.isSome_iff_exists.mp (h i (List.mem_cons_self _ _))
    rw [identWhere, hval, ih (fun i' hi' => h i' (List.mem_cons_of_mem _ hi'))]
    simp [hval]

/-- When an identifier field is missing from the object data (all
earlier ones being present), the identifier WHERE loop fails with that
field's object-field name. -/
theorem identWhere_missing : ∀ (pre : List FieldMap) (id : FieldMap)
    (post : List FieldMap) (data : Record),
    (∀ i ∈ pre, (data.lookup i.ObjectField).isSome) →
    data.lookup id.ObjectField = none →
    identWhere (pre ++ id :: post) data = Except.error id.ObjectField
  | [], id, post, data, _, hnone => by
    rw [List.nil_append, identWhere, hnone]
  | p :: pre, id, post, data, hpre, hnone => by
    obtain ⟨val, hval⟩ := Option.isSome_iff_exists.mp (hpre p (List.mem_cons_self _ _))
    rw [List.cons_append, identWhere, hval,
      identWhere_missing pre id post data
        (fun i' hi' => hpre i' (List.mem_cons_of_mem _ hi')) hnone]

/-- When the backend reports zero affected rows, the shared
execute-and-count tail fails with the not-found error. -/
theorem execAffected_zero (be : Backend) (res : ExecResult) (stage query : String)
    (values : List Value)
    (hbe : ∀ q vs, be.exec q vs = Except.ok res)
    (hra : res.rowsAffected = Except.ok 0) :
    execAffected be stage query values = Except.error AdapterErr.notFound := by
  simp [execAffected, hbe, hra]
/-- C5: for a single update, the SET clause is properties minus
identifier fields with values from the object data (absent fields
omitted, not nulled); the WHERE clause contains every identifier field,
the call failing with the missing-identifier validation error when an
identifier field is absent from the object; condition fields present in
the data are added and absent ones silently skipped; and zero affected
rows is reported as the not-found error. -/
theorem singleUpdate_spec (be : Backend) (op : Operation) (data : Record) :
    (setPairs op data).1 =
      (keepPresent op.Identifier data op.Properties).map
        (fun p => p.DataField ++ " = ?") ∧
    (setPairs op data).2 =
      (keepPresent op.Identifier data op.Properties).filterMap
        (fun p => data.lookup p.ObjectField) ∧
    (condWhere op.Condition data).1 =
      (op.Condition.filter fun c => (data.lookup c.ObjectField).isSome).map
        (fun c => c.DataField ++ " = ?") ∧
    (∀ pre id post, op.Identifier = pre ++ id :: post →
      (∀ i ∈ pre, (data.lookup i.ObjectField).isSome) →
      data.lookup id.ObjectField = none →
      singleUpdate be op (Obj.record data) =
        Except.error (AdapterErr.missingIdentifier id.ObjectField)) ∧
    ((∀ i ∈ op.Identifier, (data.lookup i.ObjectField).isSome) →
      identWhere op.Identifier data =
        Except.ok (op.Identifier.map (fun i => i.DataField ++ " = ?"),
                   op.Identifier.filterMap (fun i => data.lookup i.ObjectField))) ∧
    (∀ res, (∀ q vs, be.exec q vs = Except.ok res) → res.rowsAffected = Except.ok 0 →
      (∀ i ∈ op.Identifier, (data.lookup i.ObjectField).isSome) →
      singleUpdate be op (Obj.record data) = Except.error AdapterErr.notFound) := by
  refine ⟨?_, ?_, ?_, ?_, ?_, ?_⟩
  · simp [setPairs, setStep_foldl op data op.Properties ([], [])]
  · simp [setPairs, setStep_foldl op data op.Properties ([], [])]
  · simp [condWhere, condStep_foldl data op.Condition ([], [])]
  · intro pre id post heq hpre hnone
    simp only [singleUpdate]
    rw [heq, identWhere_missing pre id post data hpre hnone]
  · intro hall
    exact identWhere_ok op.Identifier data hall
  · intro res hbe hra hall
    simp only [singleUpdate]
    rw [identWhere_ok op.Identifier data hall]
    exact execAffected_zero be res _ _ _ hbe hra

/-- C6: for a single delete, a scalar identifier with `op.Identifier`
not of length one fails with the arity validation error for every
backend (no backend call); a record identifier missing an identifier
field fails with the missing-identifier error; and zero affected rows
is reported as the not-found error, on both the record and the scalar
path. -/
theorem singleDelete_spec (op : Operation) (idr : Record) (v : Value) :
    (∀ be : Backend, op.Identifier.length ≠ 1 →
      singleDelete be op (Obj.scalar v) = Except.error AdapterErr.simpleIdentifierArity) ∧
    (∀ (be : Backend) pre id post, op.Identifier = pre ++ id :: post →
      (∀ i ∈ pre, (idr.lookup i.ObjectField).isSome) →
      idr.lookup id.ObjectField = none →
      singleDelete be op (Obj.record idr) =
        Except.error (AdapterErr.missingIdentifier id.ObjectField)) ∧
    (∀ (be : Backend) res, (∀ q vs, be.exec q vs = Except.ok res) →
      res.rowsAffected = Except.ok 0 →
      (∀ i ∈ op.Identifier, (idr.lookup i.ObjectField).isSome) →
      singleDelete be op (Obj.record idr) = Except.error AdapterErr.notFound) ∧
    (∀ (be : Backend) res idf, op.Identifier = [idf] →
      (∀ q vs, be.exec q vs = Except.ok res) → res.rowsAffected = Except.ok 0 →
      singleDelete be op (Obj.scalar v) = Except.error AdapterErr.notFound) := by
  refine ⟨?_, ?_, ?_, ?_⟩
  · intro be h
    match hI : op.Identifier with
    | [] => simp [singleDelete, hI]
    | [idf] => exact absurd (by rw [hI]; rfl) h
    | i1 :: i2 :: rest => simp [singleDelete, hI]
  · intro be pre id post heq hpre hnone
    simp only [singleDelete]
    rw [heq, identWhere_missing pre id post idr hpre hnone]
  · intro be res hbe hra hall
    simp only [singleDelete]
    rw [identWhere_ok op.Identifier idr hall]
    exact execAffected_zero be res _ _ _ hbe hra
  · intro be res idf heq hbe hra
    simp only [singleDelete, heq]
    exact execAffected_zero be res _ _ _ hbe hra
/-- C4 (witness): the spec's end-to-end example — insert of
`Name=John, Email=j@x.com` with generated `ID/id` inserts into columns
`name, email` only and populates `ID` on the object. -/
theorem singleInsert_spec_witness :
    (insertCols opInsertExample dataJohn).1 = ["name", "email"] ∧
    ∃ d2, singleInsert emptyBackend opInsertExample (Obj.record dataJohn) =
        Except.ok (Obj.record d2) ∧
      d2.lookup "ID" = some (Value.vInt 42) := by
  obtain ⟨h1, h2, d2, hok, hwb, hfr⟩ :=
    singleInsert_spec emptyBackend opInsertExample dataJohn res42 42
      (fun _ _ => rfl) rfl (by decide)
  exact ⟨h1.trans (by decide), d2, hok, hwb ⟨"ID", "id"⟩ (by decide)⟩

/-- C5 (witness): concrete SET clause, skipped absent condition field,
missing-identifier failure, and zero-rows not-found failure. -/
theorem singleUpdate_spec_witness :
    (setPairs opUpdateExample dataJohnWithId).1 = ["name = ?", "email = ?"] ∧
    (condWhere opUpdateExample.Condition dataJohnWithId).1 = [] ∧
    singleUpdate zeroRowsBackend opUpdateExample (Obj.record dataJohn) =
      Except.error (AdapterErr.missingIdentifier "ID") ∧
    singleUpdate zeroRowsBackend opUpdateExample (Obj.record dataJohnWithId) =
      Except.error AdapterErr.notFound := by
  obtain ⟨h1, h2, h3, h4, h5, h6⟩ :=
    singleUpdate_spec zeroRowsBackend opUpdateExample dataJohnWithId
  obtain ⟨g1, g2, g3, g4, g5, g6⟩ :=
    singleUpdate_spec zeroRowsBackend opUpdateExample dataJohn
  exact ⟨h1.trans (by decide), h3.trans (by decide),
    g4 [] ⟨"ID", "id"⟩ [] rfl (by simp) rfl,
    h6 res0 (fun _ _ => rfl) rfl (by decide)⟩

/-- C6 (witness): concrete arity failure, missing-identifier failure,
and zero-rows not-found failure. -/
theorem singleDelete_spec_witness :
    singleDelete zeroRowsBackend opInsertExample (Obj.scalar (Value.vInt 7)) =
      Except.error AdapterErr.simpleIdentifierArity ∧
    singleDelete zeroRowsBackend opUpdateExample (Obj.record dataJohn) =
      Except.error (AdapterErr.missingIdentifier "ID") ∧
    singleDelete zeroRowsBackend opUpdateExample (Obj.scalar (Value.vInt 7)) =
      Except.error AdapterErr.notFound := by
  obtain ⟨a1, a2, a3, a4⟩ := singleDelete_spec opInsertExample dataJohn (Value.vInt 7)
  obtain ⟨b1, b2, b3, b4⟩ := singleDelete_spec opUpdateExample dataJohn (Value.vInt 7)
  exact ⟨a1 zeroRowsBackend (by decide),
    b2 zeroRowsBackend [] ⟨"ID", "id"⟩ [] rfl (by simp) rfl,
    b4 zeroRowsBackend res0 ⟨"ID", "id"⟩ rfl (fun _ _ => rfl) rfl⟩
/-- Unfolding of the substring test, true case. -/
theorem containsSubstr_eq_true_iff (s pat : List Char) :
    containsSubstr s pat = true ↔ pat <:+: s := by
  simp [containsSubstr]

/-- Unfolding of the substring test, false case. -/
theorem containsSubstr_eq_false_iff (s pat : List Char) :
    containsSubstr s pat = false ↔ ¬ pat <:+: s := by
  simp [containsSubstr]

/-- A `?`-free prefix of the result of replacing an occurrence by `?`
was already a prefix of the original string. -/
theorem prefix_of_replaceFirst (p : List Char) :
    ∀ (s pat : List Char), '?' ∉ pat → pat <+: replaceFirst p ['?'] s → pat <+: s
  | [], pat, hq, h => by
    rw [replaceFirst] at h
    by_cases hp : p.isPrefixOf ([] : List Char)
    · rw [if_pos hp] at h
      cases pat with
      | nil => exact List.nil_prefix
      | cons a pat' =>
        rcases List.cons_prefix_cons.mp h with ⟨ha, _⟩
        exact absurd (show ('?' : Char) ∈ a :: pat' by
          rw [← ha]; exact List.mem_cons_self _ _) hq
    · rwa [if_neg hp] at h
  | c :: rest, pat, hq, h => by
    rw [replaceFirst] at h
    by_cases hp : p.isPrefixOf (c :: rest)
    · rw [if_pos hp] at h
      cases pat with
      | nil => exact List.nil_prefix
      | cons a pat' =>
        rcases List.cons_prefix_cons.mp h with ⟨ha, _⟩
        exact absurd (show ('?' : Char) ∈ a :: pat' by
          rw [← ha]; exact List.mem_cons_self _ _) hq
    · rw [if_neg hp] at h
      cases pat with
      | nil => exact List.nil_prefix
      | cons a pat' =>
        rcases List.cons_prefix_cons.mp h with ⟨ha, h2⟩
        have hq' : ('?' : Char) ∉ pat' := fun hx => hq (List.mem_cons_of_mem _ hx)
        exact List.cons_prefix_cons.mpr
          ⟨ha, prefix_of_replaceFirst p rest pat' hq' h2⟩

/-- A `?`-free substring of the result of replacing an occurrence by
`?` already occurred in the original string. -/
theorem infix_of_replaceFirst (p : List Char) :
    ∀ (s pat : List Char), '?' ∉ pat → pat <:+: replaceFirst p ['?'] s → pat <:+: s
  | [], pat, hq, h => by
    rw [replaceFirst] at h
    by_cases hp : p.isPrefixOf ([] : List Char)
    · rw [if_pos hp] at h
      rcases List.infix_cons_iff.mp h with h1 | h2
      · cases pat with
        | nil => exact List.nil_infix
        | cons a pat' =>
          rcases List.cons_prefix_cons.mp h1 with ⟨ha, _⟩
          exact absurd (show ('?' : Char) ∈ a :: pat' by
            rw [← ha]; exact List.mem_cons_self _ _) hq
      · exact h2
    · rwa [if_neg hp] at h
  | c :: rest, pat, hq, h => by
    rw [replaceFirst] at h
    by_cases hp : p.isPrefixOf (c :: rest)
    · rw [if_pos hp] at h
      rcases List.infix_cons_iff.mp h with h1 | h2
      · cases pat with
        | nil => exact List.nil_infix
        | cons a pat' =>
          rcases List.cons_prefix_cons.mp h1 with ⟨ha, _⟩
          exact absurd (show ('?' : Char) ∈ a :: pat' by
            rw [← ha]; exact List.mem_cons_self _ _) hq
      · exact List.IsInfix.trans h2 (List.drop_suffix _ _).isInfix
    · rw [if_neg hp] at h
      rcases List.infix_cons_iff.mp h with h1 | h2
      · have h1' : pat <+: replaceFirst p ['?'] (c :: rest) := by
          rw [replaceFirst, if_neg hp]; exact h1
        exact (prefix_of_replaceFirst p (c :: rest) pat hq h1').isInfix
      · exact List.infix_cons (infix_of_replaceFirst p rest pat hq h2)

/-- Invariant of the `buildQuery` loop: a `?`-free pattern occurring in
the partially substituted statement already occurred in the original
template. -/
theorem foldl_buildStep_inv (T pat : List Char) (hq : '?' ∉ pat) :
    ∀ (params : Record) (acc : List Char × List Value),
      (pat <:+: acc.1 → pat <:+: T) →
      pat <:+: (params.foldl buildStep acc).1 → pat <:+: T
  | [], _, hacc, h => hacc h
  | kv :: params, acc, hacc, h => by
    rw [List.foldl_cons] at h
    refine foldl_buildStep_inv T pat hq params (buildStep acc kv) ?_ h
    intro hin
    by_cases hc : containsSubstr acc.1 (placeholderOf kv.1) = true
    · rw [buildStep] at hin
      simp only [hc, if_true] at hin
      exact hacc (infix_of_replaceFirst _ _ _ hq hin)
    · rw [buildStep] at hin
      simp only [Bool.not_eq_true] at hc
      simp only [hc, Bool.false_eq_true, if_false] at hin
      exact hacc hin

/-- When no parameter's placeholder occurs in the statement, the
`buildQuery` loop leaves statement and arguments unchanged. -/
theorem foldl_buildStep_unreferenced :
    ∀ (params : Record) (s : List Char) (args : List Value),
      (∀ kv ∈ params, containsSubstr s (placeholderOf kv.1) = false) →
      params.foldl buildStep (s, args) = (s, args)
  | [], _, _, _ => rfl
  | kv :: params, s, args, h => by
    rw [List.foldl_cons]
    have hc := h kv (List.mem_cons_self _ _)
    have hstep : buildStep (s, args) kv = (s, args) := by
      simp [buildStep, hc]
    rw [hstep]
    exact foldl_buildStep_unreferenced params s args
      (fun kv' h' => h kv' (List.mem_cons_of_mem _ h'))
/-- C7 (amended): if the template contains no placeholder of any
parameter key, `buildQuery` returns the template unchanged with an
empty argument list; and a parameter whose key contains no `?`
character and whose placeholder does not occur in the template is
silently dropped — removing it from the mapping leaves the result
unchanged. (Keys containing `?` are excluded because an earlier
substitution can create their placeholder, see the counterexample.) -/
theorem buildQuery_unreferenced_params (T : List Char) (params : Record) :
    ((∀ kv ∈ params, containsSubstr T (placeholderOf kv.1) = false) →
      buildQuery T params = (T, [])) ∧
    (∀ pre k v post, params = pre ++ (k, v) :: post → '?' ∉ k.toList →
      containsSubstr T (placeholderOf k) = false →
      buildQuery T params = buildQuery T (pre ++ post)) := by
  constructor
  · intro h
    exact foldl_buildStep_unreferenced params T [] h
  · intro pre k v post heq hk hTc
    subst heq
    unfold buildQuery
    rw [List.foldl_append, List.foldl_append, List.foldl_cons]
    congr 1
    have hq : ('?' : Char) ∉ placeholderOf k := by
      simp only [placeholderOf, List.mem_cons, List.mem_append, List.mem_singleton]
      push_neg
      exact ⟨by decide, hk, by decide⟩
    have hnc : containsSubstr (List.foldl buildStep (T, []) pre).1 (placeholderOf k) = false := by
      rw [containsSubstr_eq_false_iff]
      intro hinf
      exact (containsSubstr_eq_false_iff T (placeholderOf k)).mp hTc
        (foldl_buildStep_inv T (placeholderOf k) hq pre (T, []) (fun hh => hh) hinf)
    simp [buildStep, hnc]
/-- C7 (counterexample): a parameter whose placeholder does not occur
in the template can still be appended to the argument list. In the
template `\x7ba\x7bb\x7da\x7d`, substituting key `b` first produces
`\x7ba?a\x7d`, which is exactly the placeholder of the key `a?a`; that
parameter is then substituted and its value appended, although
`\x7ba?a\x7d` never occurred in the template, so the claim's \"never
appended\" is false as stated. -/
theorem buildQuery_appends_created_placeholder :
    containsSubstr tmplNested (placeholderOf "a?a") = false ∧
    containsSubstr tmplNested (placeholderOf "b") = true ∧
    (buildQuery tmplNested [("b", Value.vInt 1), ("a?a", Value.vInt 2)]).2 =
      [Value.vInt 1, Value.vInt 2] ∧
    (buildQuery tmplNested [("b", Value.vInt 1), ("a?a", Value.vInt 2)]).2 ≠
      [Value.vInt 1] := by
  decide

/-- C7 (witness): a template without placeholders is returned
unchanged, and an unreferenced `?`-free parameter is dropped. -/
theorem buildQuery_unreferenced_params_witness :
    buildQuery ('S' :: 'E' :: 'L' :: []) [("a", Value.vInt 1)] =
      ('S' :: 'E' :: 'L' :: [], []) ∧
    buildQuery tmplBA [("b", Value.vInt 2), ("c", Value.vInt 3)] =
      buildQuery tmplBA [("b", Value.vInt 2)] := by
  obtain ⟨h1, _⟩ :=
    buildQuery_unreferenced_params ('S' :: 'E' :: 'L' :: []) [("a", Value.vInt 1)]
  obtain ⟨_, g2⟩ :=
    buildQuery_unreferenced_params tmplBA [("b", Value.vInt 2), ("c", Value.vInt 3)]
  exact ⟨h1 (by decide),
    g2 [("b", Value.vInt 2)] "c" (Value.vInt 3) [] rfl (by decide) (by decide)⟩
end MySQLModel
